import Mathlib

/-!
Verification of the cyclone engineering-review formulas of the
plantAnalysis repository: the Barth-type separation-efficiency curve,
the ratio-based cyclone geometry calculator and its construction-time
validation, the parallel/series/blockage/erosion scenario formulas of
the dashboard, the composite risk score, and the nozzle extraction of
the datasheet text scraper.

Rational numbers stand in for Python floats wherever the code only
adds, multiplies, divides and compares; real numbers are used where the
code takes square roots (`np.sqrt`) or fractional powers (`** 2.5`).
-/

namespace PlantAnalysis

/-! ## Separation-efficiency curve (`app.py`, `calculate_efficiency`) -/

/-- `calculate_efficiency` of `app.py`: Barth-model separation
efficiency, `100 / (1 + (d50/particle_size) ** n)` with slope
parameter `n = 2.5`. -/
noncomputable def calculate_efficiency (particle_size d50 : ℝ) : ℝ :=
  100 / (1 + (d50 / particle_size) ^ (2.5 : ℝ))

/-- `calculate_cut_size` of `app.py`: cut size after a flow change,
`base_d50 / np.sqrt(r)` where `r` is the flow ratio. -/
noncomputable def calculate_cut_size (r base_d50 : ℝ) : ℝ :=
  base_d50 / Real.sqrt r

/-! ## Cyclone geometry (`src/modeler/cyclone_modeler.py`) -/

/-- The `CycloneGeometry` dataclass of `cyclone_modeler.py`: body,
inlet and outlet dimensions of the cyclone, in mm.  (The `nozzles`
list of the dataclass plays no part in validation and is not
modelled here.) -/
structure CycloneGeometry where
  cylinder_diameter : ℚ
  cylinder_height : ℚ
  cone_height : ℚ
  cone_outlet_diameter : ℚ
  inlet_width : ℚ
  inlet_height : ℚ
  inlet_length : ℚ
  gas_outlet_diameter : ℚ
  gas_outlet_height : ℚ
  solids_outlet_diameter : ℚ
  wall_thickness : ℚ
  deriving Repr, DecidableEq

/-- `CycloneGeometry._validate` of `cyclone_modeler.py`: raises a
`ValueError` when the cylinder diameter is nonpositive, or when the
cone outlet diameter is not smaller than the cylinder diameter. -/
def CycloneGeometry.validate (g : CycloneGeometry) : Except String Unit :=
  if g.cylinder_diameter ≤ 0 then
    Except.error "실린더 직경은 0보다 커야 합니다"
  else if g.cone_outlet_diameter ≥ g.cylinder_diameter then
    Except.error "콘 출구 직경은 실린더 직경보다 작아야 합니다"
  else
    Except.ok ()

/-- Dataclass construction followed by `__post_init__`: the record is
built from its fields and `_validate` runs; a raised `ValueError`
becomes an `error`, otherwise the record is returned unchanged. -/
def mkCycloneGeometry (g : CycloneGeometry) : Except String CycloneGeometry :=
  match g.validate with
  | Except.error e => Except.error e
  | Except.ok _ => Except.ok g

/-- The dimension block of `CycloneModeler._calculate_geometry`
(`cyclone_modeler.py`, lines 179–194): Stairmand-ratio dimensions
derived from the base diameter, with wall thickness left at the
dataclass default of 10 mm. -/
def calculate_geometry (base_diameter inlet_width inlet_height : ℚ) :
    CycloneGeometry :=
  let cylinder_diameter := base_diameter
  let cylinder_height := cylinder_diameter * 1.5
  let cone_height := cylinder_diameter * 2.5
  let cone_outlet_diameter := cylinder_diameter * 0.375
  let gas_outlet_diameter := cylinder_diameter * 0.5
  let gas_outlet_height := cylinder_diameter * 0.5
  let solids_outlet_diameter := cone_outlet_diameter
  let inlet_length := cylinder_diameter * 0.5
  ⟨cylinder_diameter, cylinder_height, cone_height, cone_outlet_diameter,
    inlet_width, inlet_height, inlet_length, gas_outlet_diameter,
    gas_outlet_height, solids_outlet_diameter, 10⟩

/-- The dimension dictionary of
`FreeCADCycloneModeler._calculate_precise_dimensions`
(`freecad_cyclone_modeler.py`). -/
structure FreeCADDimensions where
  cylinder_diameter : ℚ
  cylinder_height : ℚ
  cone_height : ℚ
  cone_outlet_diameter : ℚ
  wall_thickness : ℚ
  inlet_width : ℚ
  inlet_height : ℚ
  inlet_length : ℚ
  gas_outlet_diameter : ℚ
  gas_outlet_height : ℚ
  gas_outlet_extension : ℚ
  solids_outlet_diameter : ℚ
  total_height : ℚ
  deriving Repr, DecidableEq

/-- `FreeCADCycloneModeler._calculate_precise_dimensions`
(`freecad_cyclone_modeler.py`, lines 54–87): the base diameter is the
model size in inches times 25.4; the same Stairmand ratios as the mesh
modeler apply, except that the vortex-finder (gas outlet) height uses
the factor 0.625 and the inlet length the factor 0.4. -/
def calculate_precise_dimensions (model_size inlet_width inlet_height : ℚ) :
    FreeCADDimensions :=
  let base_diameter := model_size * 25.4
  let cylinder_diameter := base_diameter
  let cylinder_height := cylinder_diameter * 1.5
  let cone_height := cylinder_diameter * 2.5
  let cone_outlet_diameter := cylinder_diameter * 0.375
  let gas_outlet_diameter := cylinder_diameter * 0.5
  let gas_outlet_height := cylinder_diameter * 0.625
  let gas_outlet_extension := cylinder_diameter * 0.5
  let wall_thickness := 12.7
  ⟨cylinder_diameter, cylinder_height, cone_height, cone_outlet_diameter,
    wall_thickness, inlet_width, inlet_height, cylinder_diameter * 0.4,
    gas_outlet_diameter, gas_outlet_height, gas_outlet_extension,
    cone_outlet_diameter, cylinder_height + cone_height⟩

/-! ## Performance scenarios (`app.py`, tabs 3, 4 and 6) -/

/-- Tab 3 of `app.py`: inlet velocity after a flow change,
`base_velocity * flow_ratio`. -/
def new_velocity (base_velocity r : ℚ) : ℚ :=
  base_velocity * r

/-- Tab 3 of `app.py`: pressure drop after a flow change,
`base_dp * flow_ratio ** 2`. -/
def new_dp (base_dp r : ℚ) : ℚ :=
  base_dp * r ^ 2

/-- Tab 3 of `app.py`: efficiency drift, `-2 * abs(flow_ratio - 1)`. -/
def eff_change (r : ℚ) : ℚ :=
  -2 * |r - 1|

/-- Tab 3 of `app.py`: predicted efficiency,
`max(85, efficiency + eff_change)`. -/
def new_eff (base_eff r : ℚ) : ℚ :=
  max 85 (base_eff + eff_change r)

/-- Tab 4 of `app.py` (parallel branch): per-unit flow
`base_flow / n_parallel`. -/
def flow_per_unit (base_flow : ℚ) (n : ℕ) : ℚ :=
  base_flow / n

/-- Tab 4 of `app.py` (parallel branch): per-unit velocity
`base_velocity / n_parallel`. -/
def velocity_per_unit (base_velocity : ℚ) (n : ℕ) : ℚ :=
  base_velocity / n

/-- Tab 4 of `app.py` (parallel branch): per-unit pressure drop
`base_dp * (1/n_parallel) ** 2`. -/
def dp_per_unit (base_dp : ℚ) (n : ℕ) : ℚ :=
  base_dp * (1 / n) ^ 2

/-- Tab 4 of `app.py` (parallel branch): cut size of `n` parallel
units, `calculate_cut_size(1/n_parallel)` with the default
`base_d50 = 5.0`. -/
noncomputable def d50_parallel (n : ℕ) : ℝ :=
  calculate_cut_size (1 / n) 5

/-- Tab 4 of `app.py` (series branch): total pressure drop of `n`
series stages, `base_dp * n_series`. -/
def total_dp (base_dp : ℚ) (n : ℕ) : ℚ :=
  base_dp * n

/-- Tab 4 of `app.py` (series branch): combined efficiency of `n`
series stages, `1 - (1 - stage_eff) ** n_series`. -/
def total_eff (stage_eff : ℚ) (n : ℕ) : ℚ :=
  1 - (1 - stage_eff) ^ n

/-- Tab 6 of `app.py` (blockage branch): effective open-area
fraction, `1 - blockage/100`. -/
def area_factor (blockage : ℚ) : ℚ :=
  1 - blockage / 100

/-- Tab 6 of `app.py` (blockage branch): velocity through the blocked
inlet, `base_velocity / area_factor`. -/
def blocked_velocity (base_velocity blockage : ℚ) : ℚ :=
  base_velocity / area_factor blockage

/-- Tab 6 of `app.py` (blockage branch): pressure drop across the
blocked inlet, `base_dp / area_factor ** 2`. -/
def blocked_dp (base_dp blockage : ℚ) : ℚ :=
  base_dp / area_factor blockage ^ 2

/-- Tab 6 of `app.py` (erosion branch): erosion rate in mm/year,
`(base_velocity / 20) ** 3`. -/
def erosion_rate (base_velocity : ℚ) : ℚ :=
  (base_velocity / 20) ^ 3

/-- Tab 6 of `app.py` (erosion branch): cumulative thickness loss,
`erosion_rate * (operating_hours / 8760)`. -/
def thickness_loss (base_velocity operating_hours : ℚ) : ℚ :=
  erosion_rate base_velocity * (operating_hours / 8760)

/-- Tab 6 of `app.py` (erosion branch): efficiency degradation,
`min(10, thickness_loss * 0.5)`. -/
def eff_degradation (base_velocity operating_hours : ℚ) : ℚ :=
  min 10 (thickness_loss base_velocity operating_hours * 0.5)

/-- Tab 6 of `app.py` (erosion branch): predicted efficiency,
`max(80, efficiency - eff_degradation)`. -/
def predicted_eff (base_eff base_velocity operating_hours : ℚ) : ℚ :=
  max 80 (base_eff - eff_degradation base_velocity operating_hours)

/-! ## Composite risk score (`app.py`, lines 409–437) -/

/-- Risk sub-score for the pressure margin: 100 above 100 %, 50 above
50 %, otherwise 20. -/
def score_pressure_margin (margin_p : ℚ) : ℚ :=
  if margin_p > 100 then 100 else if margin_p > 50 then 50 else 20

/-- Risk sub-score for the temperature margin: 100 above 50 %, 50
above 30 %, otherwise 20. -/
def score_temp_margin (margin_t : ℚ) : ℚ :=
  if margin_t > 50 then 100 else if margin_t > 30 then 50 else 20

/-- Risk sub-score for the inlet velocity: 100 below 20 m/s, 50 below
22 m/s, otherwise 20. -/
def score_velocity (base_velocity : ℚ) : ℚ :=
  if base_velocity < 20 then 100 else if base_velocity < 22 then 50 else 20

/-- Risk sub-score for the pressure drop: 100 below 0.5, 50 below
0.7, otherwise 20. -/
def score_dp (base_dp : ℚ) : ℚ :=
  if base_dp < 0.5 then 100 else if base_dp < 0.7 then 50 else 20

/-- Risk sub-score for the efficiency: 100 above 95 %, otherwise 50. -/
def score_eff (base_eff : ℚ) : ℚ :=
  if base_eff > 95 then 100 else 50

/-- `np.mean(list(risk_scores.values()))`: arithmetic mean of the five
sub-scores. -/
def avg_risk (margin_p margin_t base_velocity base_dp base_eff : ℚ) : ℚ :=
  (score_pressure_margin margin_p + score_temp_margin margin_t +
    score_velocity base_velocity + score_dp base_dp + score_eff base_eff) / 5

/-- The three qualitative bands of the risk classification. -/
inductive RiskBand where
  | safe
  | caution
  | danger
  deriving Repr, DecidableEq

/-- The classification of `app.py`, lines 432–437: "safe" above 70,
"caution" above 40, otherwise the danger band. -/
def classify_risk (avg : ℚ) : RiskBand :=
  if avg > 70 then RiskBand.safe
  else if avg > 40 then RiskBand.caution
  else RiskBand.danger

/-! ## Nozzle extraction (`src/extractor/pdf_parser.py`,
`CyclonePDFParser._parse_nozzle_data`)

The Python code keeps an insertion-ordered dictionary of nozzles keyed
by strings, seeds it with the hard-coded nozzles `412` and `413`, and
then scans every line of the PDF text with two regular expressions for
`Solids` and `Cleanout` nozzle rows.  The dictionary is modelled as an
association list with Python `dict` update semantics; the regular
expressions are modelled as scanners over whitespace-separated
tokens. -/

/-- The double-quote character (`"`), written via its code point so it
can be concatenated into strings and keys. -/
def quoteChar : Char := Char.ofNat 34

/-- The one-character string holding a double quote. -/
def quoteStr : String := String.mk [quoteChar]

/-- A nozzle dictionary of `_parse_nozzle_data`; the regex-derived
nozzles carry no `tag` key, hence the `Option`. -/
structure Nozzle where
  tag : Option String
  service : String
  size : String
  rating : String
  facing : String
  deriving Repr, DecidableEq

/-- The hard-coded nozzle `412` of `_parse_nozzle_data`. -/
def nozzle412 : Nozzle :=
  ⟨some "412", "Gas Inlet", "14" ++ quoteStr, "300#", "RF"⟩

/-- The hard-coded nozzle `413` of `_parse_nozzle_data`. -/
def nozzle413 : Nozzle :=
  ⟨some "413", "Gas Outlet", "14" ++ quoteStr, "300#", "RF"⟩

/-- Python `dict` assignment `m[k] = v` on an insertion-ordered
association list: overwrite in place when the key exists, append
otherwise. -/
def insertNozzle (m : List (String × Nozzle)) (k : String) (v : Nozzle) :
    List (String × Nozzle) :=
  if m.any (fun p => p.1 == k) then
    m.map (fun p => if p.1 = k then (k, v) else p)
  else m ++ [(k, v)]

/-- Whether `pat` occurs as a contiguous run inside `l` (Python's
`pat in line` on the character lists). -/
def hasSub (pat : List Char) : List Char → Bool
  | [] => pat.isEmpty
  | c :: t => pat.isPrefixOf (c :: t) || hasSub pat t

/-- Python's substring test `pat in s`. -/
def strContains (s pat : String) : Bool :=
  hasSub pat.data s.data

/-- A regex word character, `\w`. -/
def isWordChar (c : Char) : Bool :=
  c.isAlphanum || c == '_'

/-- A token made of word characters only (a maximal run matched by
`[\w\s]+` between whitespace). -/
def isWordTok (s : String) : Bool :=
  !s.data.isEmpty && s.data.all isWordChar

/-- A token of word characters or parentheses, for the Cleanout
pattern's `[\w\s\(\)]+?` group. -/
def isWordParenTok (s : String) : Bool :=
  !s.data.isEmpty && s.data.all (fun c => isWordChar c || c == '(' || c == ')')

/-- A token matching `(\d+)"`; returns the digit group. -/
def parseSizeTok (s : String) : Option String :=
  let d := s.data
  if (d.getLast? == some quoteChar) && !d.dropLast.isEmpty &&
      d.dropLast.all Char.isDigit then
    some (String.mk d.dropLast)
  else none

/-- A token matching `(\d+#)` (the rating group keeps the `#`). -/
def isRatingTok (s : String) : Bool :=
  let d := s.data
  (d.getLast? == some '#') && !d.dropLast.isEmpty && d.dropLast.all Char.isDigit

/-- Re-joining the words of the lazy middle group with single
spaces. -/
def joinWords : List String → String
  | [] => ""
  | [w] => w
  | w :: ws => w ++ " " ++ joinWords ws

/-- The part of the regex after the leading keyword:
`([\w\s]+?)\s+(\d+)"\s+(\d+#)\s+(\w+)` over whitespace tokens.  The
lazy middle group accumulates in `acc` until a size token followed by
a rating and a facing token is found. -/
def grabGroups (midOk : String → Bool) (acc : List String) :
    List String → Option (String × String × String × String)
  | [] => none
  | w :: ws =>
    match parseSizeTok w, ws with
    | some sz, r :: f :: _ =>
      if !acc.isEmpty && isRatingTok r && isWordTok f then
        some (joinWords acc.reverse, sz, r, f)
      else none
    | _, _ => if midOk w then grabGroups midOk (w :: acc) ws else none

/-- `re.search` of the whole pattern: try every occurrence of the
leading keyword token. -/
def searchFrom (key : String) (midOk : String → Bool) :
    List String → Option (String × String × String × String)
  | [] => none
  | t :: rest =>
    if t = key then
      match grabGroups midOk [] rest with
      | some g => some g
      | none => searchFrom key midOk rest
    else searchFrom key midOk rest

/-- Whitespace tokenization of one line. -/
def tokenize (line : String) : List String :=
  (line.splitOn " ").filter (fun w => w != "")

/-- The body of the scan loop of `_parse_nozzle_data` for one line:
the `Solids`/`Outlet` branch, then the `Cleanout` branch, each
inserting under the key `f"Solids_{size}"` / `f"Cleanout_{size}"`. -/
def processLine (m : List (String × Nozzle)) (line : String) :
    List (String × Nozzle) :=
  if strContains line "Solids" && strContains line "Outlet" &&
      strContains line quoteStr then
    match searchFrom "Solids" isWordTok (tokenize line) with
    | some (mid, sz, rat, fac) =>
        insertNozzle m ("Solids_" ++ (sz ++ quoteStr))
          ⟨none, "Solids " ++ mid, sz ++ quoteStr, rat, fac⟩
    | none => m
  else if strContains line "Cleanout" && strContains line quoteStr then
    match searchFrom "Cleanout" isWordParenTok (tokenize line) with
    | some (mid, sz, rat, fac) =>
        insertNozzle m ("Cleanout_" ++ (sz ++ quoteStr))
          ⟨none, "Cleanout " ++ mid, sz ++ quoteStr, rat, fac⟩
    | none => m
  else m

/-- `CyclonePDFParser._parse_nozzle_data`: seed the dictionary with
nozzles `412` and `413`, scan every line of the PDF text, and return
`list(nozzle_map.values())`. -/
def parseNozzleData (pdfText : String) : List Nozzle :=
  let m0 := insertNozzle (insertNozzle [] "412" nozzle412) "413" nozzle413
  ((pdfText.splitOn "\n").foldl processLine m0).map Prod.snd

/-! ## Theorems -/

/-- C1: the separation-efficiency curve
`efficiency(particle_size, d50) = 100 / (1 + (d50/particle_size)^2.5)`
is strictly increasing in the particle size for every fixed `d50 > 0`,
strictly decreasing in `d50` for every fixed particle size `> 0`, and
equals exactly 50 at `particle_size = d50` for every `d > 0`. -/
theorem spec_C1 :
    (∀ d p₁ p₂ : ℝ, 0 < d → 0 < p₁ → p₁ < p₂ →
      calculate_efficiency p₁ d < calculate_efficiency p₂ d) ∧
    (∀ p d₁ d₂ : ℝ, 0 < p → 0 < d₁ → d₁ < d₂ →
      calculate_efficiency p d₂ < calculate_efficiency p d₁) ∧
    (∀ d : ℝ, 0 < d → calculate_efficiency d d = 50) := by
  refine ⟨?_, ?_, ?_⟩
  · intro d p₁ p₂ hd hp₁ hp12
    unfold calculate_efficiency
    have hp₂ : 0 < p₂ := hp₁.trans hp12
    have hq : d / p₂ < d / p₁ := div_lt_div_of_pos_left hd hp₁ hp12
    have hq₂ : (0 : ℝ) ≤ d / p₂ := le_of_lt (div_pos hd hp₂)
    have hr : (d / p₂) ^ (2.5 : ℝ) < (d / p₁) ^ (2.5 : ℝ) :=
      Real.rpow_lt_rpow hq₂ hq (by norm_num)
    have hden : (0 : ℝ) < 1 + (d / p₂) ^ (2.5 : ℝ) := by positivity
    exact div_lt_div_of_pos_left (by norm_num) hden (by linarith)
  · intro p d₁ d₂ hp hd₁ hd12
    unfold calculate_efficiency
    have hq₁ : (0 : ℝ) ≤ d₁ / p := le_of_lt (div_pos hd₁ hp)
    have hr : (d₁ / p) ^ (2.5 : ℝ) < (d₂ / p) ^ (2.5 : ℝ) :=
      Real.rpow_lt_rpow hq₁ ((div_lt_div_iff_of_pos_right hp).mpr hd12)
        (by norm_num)
    have hden : (0 : ℝ) < 1 + (d₁ / p) ^ (2.5 : ℝ) := by positivity
    exact div_lt_div_of_pos_left (by norm_num) hden (by linarith)
  · intro d hd
    unfold calculate_efficiency
    rw [div_self (ne_of_gt hd), Real.one_rpow]
    norm_num

/-- Witness for C1 at particle sizes 1 and 2 and cut sizes 1 and 2. -/
theorem spec_C1_w :
    calculate_efficiency 1 1 < calculate_efficiency 2 1 ∧
    calculate_efficiency 1 2 < calculate_efficiency 1 1 ∧
    calculate_efficiency 1 1 = 50 :=
  ⟨spec_C1.1 1 1 2 one_pos one_pos (by norm_num),
   spec_C1.2.1 1 1 2 one_pos one_pos (by norm_num),
   spec_C1.2.2 1 one_pos⟩

/-- C2: for every base diameter `D > 0` the geometry calculator yields
cylinder height `D × 1.5`, cone height `D × 2.5`, cone outlet diameter
`D × 0.375`, gas outlet diameter `D × 0.5`, gas outlet height
`D × 0.5` (`D × 0.625` in the FreeCAD variant), and a solids outlet
diameter equal to the cone outlet diameter; consequently the cone
outlet diameter is smaller than `D` and the cylinder height larger. -/
theorem spec_C2 (D w h m : ℚ) (hD : 0 < D) :
    (calculate_geometry D w h).cylinder_height = D * 1.5 ∧
    (calculate_geometry D w h).cone_height = D * 2.5 ∧
    (calculate_geometry D w h).cone_outlet_diameter = D * 0.375 ∧
    (calculate_geometry D w h).gas_outlet_diameter = D * 0.5 ∧
    (calculate_geometry D w h).gas_outlet_height = D * 0.5 ∧
    (calculate_geometry D w h).solids_outlet_diameter =
      (calculate_geometry D w h).cone_outlet_diameter ∧
    (calculate_geometry D w h).cone_outlet_diameter < D ∧
    D < (calculate_geometry D w h).cylinder_height ∧
    (calculate_precise_dimensions m w h).gas_outlet_height =
      (calculate_precise_dimensions m w h).cylinder_diameter * 0.625 ∧
    (calculate_precise_dimensions m w h).solids_outlet_diameter =
      (calculate_precise_dimensions m w h).cone_outlet_diameter := by
  refine ⟨rfl, rfl, rfl, rfl, rfl, rfl, ?_, ?_, rfl, rfl⟩
  · show D * 0.375 < D
    linarith
  · show D < D * 1.5
    linarith

/-- Witness for C2 at the Fisher-Klosterman base diameter of 279 mm
and the extracted inlet of 140 × 279 mm. -/
theorem spec_C2_w :
    (calculate_geometry 279 140 279).cone_outlet_diameter < 279 ∧
    (279 : ℚ) < (calculate_geometry 279 140 279).cylinder_height :=
  ⟨(spec_C2 279 140 279 11 (by norm_num)).2.2.2.2.2.2.1,
   (spec_C2 279 140 279 11 (by norm_num)).2.2.2.2.2.2.2.1⟩

/-- Helper: the checked construction of a `CycloneGeometry` record as
one conditional. -/
theorem mkCycloneGeometry_eq (g : CycloneGeometry) :
    mkCycloneGeometry g =
      if g.cylinder_diameter ≤ 0 then
        Except.error "실린더 직경은 0보다 커야 합니다"
      else if g.cone_outlet_diameter ≥ g.cylinder_diameter then
        Except.error "콘 출구 직경은 실린더 직경보다 작아야 합니다"
      else Except.ok g := by
  unfold mkCycloneGeometry CycloneGeometry.validate
  split_ifs <;> rfl

/-- C3: constructing the geometry record fails with a validation error
exactly when the cylinder diameter is nonpositive or the cone outlet
diameter is not strictly below it, and on success it returns the
record built from its inputs unchanged. -/
theorem spec_C3 (g : CycloneGeometry) :
    ((∃ msg, mkCycloneGeometry g = Except.error msg) ↔
      g.cylinder_diameter ≤ 0 ∨
        g.cylinder_diameter ≤ g.cone_outlet_diameter) ∧
    (¬(g.cylinder_diameter ≤ 0 ∨
        g.cylinder_diameter ≤ g.cone_outlet_diameter) →
      mkCycloneGeometry g = Except.ok g) := by
  rw [mkCycloneGeometry_eq]
  split_ifs with h1 h2
  · exact ⟨⟨fun _ => Or.inl h1, fun _ => ⟨_, rfl⟩⟩,
      fun hc => absurd (Or.inl h1) hc⟩
  · exact ⟨⟨fun _ => Or.inr h2, fun _ => ⟨_, rfl⟩⟩,
      fun hc => absurd (Or.inr h2) hc⟩
  · refine ⟨⟨fun hex => ?_, fun hc => ((not_or.mpr ⟨h1, h2⟩) hc).elim⟩,
      fun _ => rfl⟩
    obtain ⟨msg, hmsg⟩ := hex
    exact absurd hmsg (by simp)

/-- Witness for C3: the geometry derived from the 279 mm base passes
validation and is returned unchanged. -/
theorem spec_C3_w :
    mkCycloneGeometry (calculate_geometry 279 140 279) =
      Except.ok (calculate_geometry 279 140 279) :=
  (spec_C3 (calculate_geometry 279 140 279)).2 (by norm_num [calculate_geometry])

/-- C4: with `n ≥ 2` parallel units the per-unit flow is `total/n`,
the per-unit velocity `base/n`, the per-unit pressure drop
`base × (1/n)²`, the parallel cut size `base_d50 / sqrt(1/n)`, and for
`n = 2` with the default `base_d50 = 5.0` the cut size lies strictly
between 7.07 and 7.08 µm. -/
theorem spec_C4 (n : ℕ) (hn : 2 ≤ n) (base_flow base_velocity base_dp : ℚ)
    (base_d50 : ℝ) :
    flow_per_unit base_flow n = base_flow / n ∧
    velocity_per_unit base_velocity n = base_velocity / n ∧
    dp_per_unit base_dp n = base_dp * (1 / n) ^ 2 ∧
    calculate_cut_size (1 / n) base_d50 = base_d50 / Real.sqrt (1 / n) ∧
    7.07 < d50_parallel 2 ∧ d50_parallel 2 < 7.08 := by
  have hs1 : Real.sqrt (1 / 2 : ℝ) < 0.70711 :=
    (Real.sqrt_lt' (by norm_num)).mpr (by norm_num)
  have hs2 : (0.7071 : ℝ) < Real.sqrt (1 / 2 : ℝ) :=
    (Real.lt_sqrt (by norm_num)).mpr (by norm_num)
  have hspos : (0 : ℝ) < Real.sqrt (1 / 2 : ℝ) :=
    Real.sqrt_pos.mpr (by norm_num)
  have hcast : (1 : ℝ) / ((2 : ℕ) : ℝ) = 1 / 2 := by norm_num
  refine ⟨rfl, rfl, rfl, rfl, ?_, ?_⟩
  · unfold d50_parallel calculate_cut_size
    rw [hcast]
    calc (7.07 : ℝ) < 5 / 0.70711 := by norm_num
      _ < 5 / Real.sqrt (1 / 2) :=
        div_lt_div_of_pos_left (by norm_num) hspos hs1
  · unfold d50_parallel calculate_cut_size
    rw [hcast]
    calc (5 : ℝ) / Real.sqrt (1 / 2)
        < 5 / 0.7071 := div_lt_div_of_pos_left (by norm_num) (by norm_num) hs2
      _ < 7.08 := by norm_num

/-- Witness for C4 at `n = 2` and the base operating point. -/
theorem spec_C4_w : 7.07 < d50_parallel 2 ∧ d50_parallel 2 < 7.08 :=
  ⟨(spec_C4 2 (by norm_num) 671 20 0.357 5).2.2.2.2.1,
   (spec_C4 2 (by norm_num) 671 20 0.357 5).2.2.2.2.2⟩

/-- C5: with `n ≥ 2` series stages the total pressure drop is
`base × n` and the combined efficiency of stage efficiency
`e ∈ [0,1]` is `1 − (1 − e)^n`; for `e = 0.5` and `n = 2` the
combined efficiency is exactly 0.75. -/
theorem spec_C5 (n : ℕ) (hn : 2 ≤ n) (base_dp e : ℚ)
    (he0 : 0 ≤ e) (he1 : e ≤ 1) :
    total_dp base_dp n = base_dp * n ∧
    total_eff e n = 1 - (1 - e) ^ n ∧
    total_eff (1 / 2) 2 = 3 / 4 :=
  ⟨rfl, rfl, by norm_num [total_eff]⟩

/-- Witness for C5 at two stages of 50 % efficiency. -/
theorem spec_C5_w : total_eff (1 / 2) 2 = 3 / 4 :=
  (spec_C5 2 (by norm_num) 0.357 (1 / 2) (by norm_num) (by norm_num)).2.2

/-- C6: under a flow perturbation with positive base flow the new
velocity is `base × flow_ratio`, the new pressure drop
`base × flow_ratio²`, the predicted efficiency
`max(85, base − 2·|flow_ratio − 1|)`, and for a base pressure drop of
0.357 at flow ratio 1.2 the new pressure drop is exactly 0.51408. -/
theorem spec_C6 (flow_new flow_base base_velocity base_dp base_eff : ℚ)
    (hb : 0 < flow_base) :
    new_velocity base_velocity (flow_new / flow_base) =
      base_velocity * (flow_new / flow_base) ∧
    new_dp base_dp (flow_new / flow_base) =
      base_dp * (flow_new / flow_base) ^ 2 ∧
    new_eff base_eff (flow_new / flow_base) =
      max 85 (base_eff - 2 * |flow_new / flow_base - 1|) ∧
    new_dp 0.357 1.2 = 0.51408 := by
  refine ⟨rfl, rfl, ?_, by norm_num [new_dp]⟩
  unfold new_eff eff_change
  have : base_eff + -2 * |flow_new / flow_base - 1| =
      base_eff - 2 * |flow_new / flow_base - 1| := by ring
  rw [this]

/-- Witness for C6 at the base flow 671 and a 20 % flow increase. -/
theorem spec_C6_w : new_dp 0.357 1.2 = 0.51408 :=
  (spec_C6 (671 * 1.2) 671 20 0.357 99.2 (by norm_num)).2.2.2

/-- C7: for a blockage percentage strictly between 0 and 100 the open
area fraction is `1 − b/100`, the blocked velocity is the base
velocity divided by that fraction and the blocked pressure drop the
base drop divided by its square; at 50 % blockage the velocity exactly
doubles and the pressure drop exactly quadruples. -/
theorem spec_C7 (blockage base_velocity base_dp : ℚ)
    (hb0 : 0 < blockage) (hb1 : blockage < 100) :
    area_factor blockage = 1 - blockage / 100 ∧
    blocked_velocity base_velocity blockage =
      base_velocity / (1 - blockage / 100) ∧
    blocked_dp base_dp blockage = base_dp / (1 - blockage / 100) ^ 2 ∧
    blocked_velocity base_velocity 50 = 2 * base_velocity ∧
    blocked_dp base_dp 50 = 4 * base_dp := by
  refine ⟨rfl, rfl, rfl, ?_, ?_⟩
  · unfold blocked_velocity area_factor
    rw [show (1 : ℚ) - 50 / 100 = 2⁻¹ by norm_num, div_eq_mul_inv, inv_inv,
      mul_comm]
  · unfold blocked_dp area_factor
    rw [show ((1 : ℚ) - 50 / 100) ^ 2 = 4⁻¹ by norm_num, div_eq_mul_inv,
      inv_inv, mul_comm]

/-- Witness for C7 at 50 % blockage of the base operating point. -/
theorem spec_C7_w :
    blocked_velocity 20 50 = 2 * 20 ∧ blocked_dp 0.357 50 = 4 * 0.357 :=
  ⟨(spec_C7 50 20 0.357 (by norm_num) (by norm_num)).2.2.2.1,
   (spec_C7 50 20 0.357 (by norm_num) (by norm_num)).2.2.2.2⟩

/-- C8: for positive operating hours the erosion rate is
`(velocity/20)³`, the thickness loss is that rate times
`hours/8760`, the efficiency degradation is
`min(10, loss × 0.5)` percentage points, and the predicted efficiency
is the base efficiency minus the degradation, floored at 80. -/
theorem spec_C8 (base_velocity operating_hours base_eff : ℚ)
    (hh : 0 < operating_hours) :
    erosion_rate base_velocity = (base_velocity / 20) ^ 3 ∧
    thickness_loss base_velocity operating_hours =
      erosion_rate base_velocity * (operating_hours / 8760) ∧
    eff_degradation base_velocity operating_hours =
      min 10 (thickness_loss base_velocity operating_hours * 0.5) ∧
    predicted_eff base_eff base_velocity operating_hours =
      max 80 (base_eff - eff_degradation base_velocity operating_hours) :=
  ⟨rfl, rfl, rfl, rfl⟩

/-- Witness for C8 at one year of operation at the base velocity. -/
theorem spec_C8_w : erosion_rate 20 = (20 / 20) ^ 3 :=
  (spec_C8 20 8760 99.2 (by norm_num)).1

/-- C9: every one of the five risk sub-scores lies in {100, 50, 20},
their arithmetic mean lies in [0, 100], the mean is classified safe
exactly when it exceeds 70 and caution exactly when it lies in
(40, 70], and if all five sub-scores are 100 the mean is 100 and the
state is classified safe. -/
theorem spec_C9 (margin_p margin_t base_velocity base_dp base_eff : ℚ) :
    score_pressure_margin margin_p ∈ ({100, 50, 20} : Set ℚ) ∧
    score_temp_margin margin_t ∈ ({100, 50, 20} : Set ℚ) ∧
    score_velocity base_velocity ∈ ({100, 50, 20} : Set ℚ) ∧
    score_dp base_dp ∈ ({100, 50, 20} : Set ℚ) ∧
    score_eff base_eff ∈ ({100, 50, 20} : Set ℚ) ∧
    0 ≤ avg_risk margin_p margin_t base_velocity base_dp base_eff ∧
    avg_risk margin_p margin_t base_velocity base_dp base_eff ≤ 100 ∧
    (classify_risk (avg_risk margin_p margin_t base_velocity base_dp base_eff) =
        RiskBand.safe ↔
      70 < avg_risk margin_p margin_t base_velocity base_dp base_eff) ∧
    (classify_risk (avg_risk margin_p margin_t base_velocity base_dp base_eff) =
        RiskBand.caution ↔
      40 < avg_risk margin_p margin_t base_velocity base_dp base_eff ∧
        avg_risk margin_p margin_t base_velocity base_dp base_eff ≤ 70) ∧
    (score_pressure_margin margin_p = 100 → score_temp_margin margin_t = 100 →
      score_velocity base_velocity = 100 → score_dp base_dp = 100 →
      score_eff base_eff = 100 →
      avg_risk margin_p margin_t base_velocity base_dp base_eff = 100 ∧
        classify_risk
          (avg_risk margin_p margin_t base_velocity base_dp base_eff) =
          RiskBand.safe) := by
  have b1 : 20 ≤ score_pressure_margin margin_p ∧
      score_pressure_margin margin_p ≤ 100 := by
    unfold score_pressure_margin; split_ifs <;> norm_num
  have b2 : 20 ≤ score_temp_margin margin_t ∧
      score_temp_margin margin_t ≤ 100 := by
    unfold score_temp_margin; split_ifs <;> norm_num
  have b3 : 20 ≤ score_velocity base_velocity ∧
      score_velocity base_velocity ≤ 100 := by
    unfold score_velocity; split_ifs <;> norm_num
  have b4 : 20 ≤ score_dp base_dp ∧ score_dp base_dp ≤ 100 := by
    unfold score_dp; split_ifs <;> norm_num
  have b5 : 20 ≤ score_eff base_eff ∧ score_eff base_eff ≤ 100 := by
    unfold score_eff; split_ifs <;> norm_num
  refine ⟨?_, ?_, ?_, ?_, ?_, ?_, ?_, ?_, ?_, ?_⟩
  · unfold score_pressure_margin; split_ifs <;> simp
  · unfold score_temp_margin; split_ifs <;> simp
  · unfold score_velocity; split_ifs <;> simp
  · unfold score_dp; split_ifs <;> simp
  · unfold score_eff; split_ifs <;> simp
  · unfold avg_risk; linarith [b1.1, b2.1, b3.1, b4.1, b5.1]
  · unfold avg_risk; linarith [b1.2, b2.2, b3.2, b4.2, b5.2]
  · unfold classify_risk
    split_ifs with hc1 hc2 <;> simp_all
  · unfold classify_risk
    split_ifs with hc1 hc2 <;> simp_all <;> linarith
  · intro e1 e2 e3 e4 e5
    have havg : avg_risk margin_p margin_t base_velocity base_dp base_eff =
        100 := by
      unfold avg_risk; rw [e1, e2, e3, e4, e5]; norm_num
    refine ⟨havg, ?_⟩
    rw [havg]
    norm_num [classify_risk]

/-- Witness for C9 at an operating point scoring 100 on all five
sub-scores. -/
theorem spec_C9_w :
    avg_risk 200 60 10 (2 / 5) 99 = 100 ∧
    classify_risk (avg_risk 200 60 10 (2 / 5) 99) = RiskBand.safe :=
  (spec_C9 200 60 10 (2 / 5) 99).2.2.2.2.2.2.2.2.2
    (by norm_num [score_pressure_margin])
    (by norm_num [score_temp_margin])
    (by norm_num [score_velocity])
    (by norm_num [score_dp])
    (by norm_num [score_eff])

/-- Helper: a pair with a different key survives a dictionary
assignment. -/
theorem mem_insertNozzle (m : List (String × Nozzle)) (k : String) (v : Nozzle)
    (k' : String) (v' : Nozzle) (hk : k' ≠ k) (hm : (k', v') ∈ m) :
    (k', v') ∈ insertNozzle m k v := by
  unfold insertNozzle
  split
  · exact List.mem_map.mpr ⟨(k', v'), hm, by simp [hk]⟩
  · exact List.mem_append_left _ hm

/-- Helper: a scan-loop key `pre ++ size ++ quote` is never one of the
three-character seed tags. -/
theorem prefixKey_ne_tag (pre sz t : String) (hpre : 6 ≤ pre.length)
    (ht : t.length = 3) : pre ++ (sz ++ quoteStr) ≠ t := by
  intro h
  have hlen := congrArg String.length h
  rw [String.length_append, String.length_append, ht] at hlen
  have hq : quoteStr.length = 1 := rfl
  rw [hq] at hlen
  omega

/-- Helper: one pass of the scan loop keeps every nozzle stored under
a three-character key. -/
theorem processLine_mem_keep (m : List (String × Nozzle)) (line : String)
    (k : String) (v : Nozzle) (hk : k.length = 3) (hm : (k, v) ∈ m) :
    (k, v) ∈ processLine m line := by
  unfold processLine
  repeat' split
  all_goals first
    | exact hm
    | exact mem_insertNozzle _ _ _ k v
        (Ne.symm (prefixKey_ne_tag "Solids_" _ k (by decide) hk)) hm
    | exact mem_insertNozzle _ _ _ k v
        (Ne.symm (prefixKey_ne_tag "Cleanout_" _ k (by decide) hk)) hm

/-- Helper: the whole scan loop keeps every nozzle stored under a
three-character key. -/
theorem foldl_processLine_keep (lines : List String)
    (m : List (String × Nozzle)) (k : String) (v : Nozzle)
    (hk : k.length = 3) (hm : (k, v) ∈ m) :
    (k, v) ∈ lines.foldl processLine m := by
  induction lines generalizing m with
  | nil => exact hm
  | cons l ls ih => exact ih _ (processLine_mem_keep _ _ _ _ hk hm)

/-- Helper: a list containing two different elements has length at
least two. -/
theorem two_le_length_of_mem {α : Type} {l : List α} {a b : α}
    (ha : a ∈ l) (hb : b ∈ l) (hab : a ≠ b) : 2 ≤ l.length := by
  rcases l with _ | ⟨x, _ | ⟨y, t⟩⟩
  · cases ha
  · rw [List.mem_singleton] at ha hb
    exact absurd (ha.trans hb.symm) hab
  · simp [List.length_cons]

/-- C10: for every input PDF text the nozzle extraction returns a list
containing the hard-coded nozzle 412 (Gas Inlet, 14", 300#, RF) and
the hard-coded nozzle 413 (Gas Outlet, 14", 300#, RF); the list
therefore always has at least two entries and is never empty. -/
theorem spec_C10 (pdfText : String) :
    nozzle412 ∈ parseNozzleData pdfText ∧
    nozzle413 ∈ parseNozzleData pdfText ∧
    2 ≤ (parseNozzleData pdfText).length ∧
    parseNozzleData pdfText ≠ [] := by
  unfold parseNozzleData
  have h412 : ("412", nozzle412) ∈
      insertNozzle (insertNozzle [] "412" nozzle412) "413" nozzle413 := by
    decide
  have h413 : ("413", nozzle413) ∈
      insertNozzle (insertNozzle [] "412" nozzle412) "413" nozzle413 := by
    decide
  have hm412 := foldl_processLine_keep (pdfText.splitOn "\n") _ _ _
    (by decide) h412
  have hm413 := foldl_processLine_keep (pdfText.splitOn "\n") _ _ _
    (by decide) h413
  have hne : ("412", nozzle412) ≠ ("413", nozzle413) := by decide
  have hlen : 2 ≤ ((pdfText.splitOn "\n").foldl processLine
      (insertNozzle (insertNozzle [] "412" nozzle412) "413"
        nozzle413)).length :=
    two_le_length_of_mem hm412 hm413 hne
  refine ⟨List.mem_map.mpr ⟨_, hm412, rfl⟩, List.mem_map.mpr ⟨_, hm413, rfl⟩,
    ?_, ?_⟩
  · rw [List.length_map]
    exact hlen
  · apply List.length_pos.mp
    rw [List.length_map]
    omega

end PlantAnalysis
